import Mathlib

/-!
Verification of the winping asynchronous completion bridge.

This file is a shallow embedding of the parts of the winping crate that the
verified properties concern:

* `src/buffer.rs` — the `Buffer` type, its reply-region sizing
  (`init_for_send`, `reply_data_len`) and the bounds-checked `reply_data`
  accessor.  The request-data vector is modelled by its length
  (`request_len`), and the reply-region vector of chunks by the number of
  chunks it holds (`reply_chunks`); no verified property inspects the bytes
  themselves.  Sizes are those of the 64-bit target the crate compiles for
  by default (`CHUNK_SIZE = 8`, `ICMP_ECHO_REPLY` 40 bytes,
  `ICMPV6_ECHO_REPLY` 36 bytes, `ICMP_ECHO_REPLY32` 28 bytes).
* `src/error.rs` — the `Error` enum and the `from_iperror` / `from_winerror`
  mappings, with the Windows numeric constants inlined.
* `src/async_pinger.rs` — the per-request shared `State`, the post-send
  handling `after_send`, the OS completion callback `callback_fn`, and the
  `Future::poll` implementation of `PingFuture`.

Machine integers (`u32`, `usize`) are modelled as `Nat`; the one place where
wrap-around is observable — `Buffer::reply_data_len`'s `as u32` cast — takes
an explicit `% 2 ^ 32`.  Effects that the Rust code performs besides the
state transition are made explicit in return values: `after_send` returns,
besides the new state, the number of times `Arc::from_raw` was executed on
the job's raw context pointer and the list of wakers that were woken;
`callback_fn` returns the list of wakers woken; `poll` returns the poll
outcome, with `PollResult.Panic` standing for the `unreachable!` / `unwrap`
panicking paths.  Wakers are identified by a `Nat` token.  Values read from
OS-owned memory or returned by OS calls (`IcmpParseReplies` result,
`GetLastError`, the echo-reply fields) are inputs of the model
(`ParseOracle`), since the OS is an external collaborator.
-/

namespace Winping

/-- `winapi` constant `ERROR_IO_PENDING` (997). -/
def ERROR_IO_PENDING : Nat := 997

/-- `winapi` constant `IP_SUCCESS` (0). -/
def IP_SUCCESS : Nat := 0

/-- `winapi` constant `IP_STATUS_BASE` (11000). -/
def IP_STATUS_BASE : Nat := 11000

/-- `winapi` constant `MAX_IP_STATUS` (`IP_STATUS_BASE + 50` = 11050). -/
def MAX_IP_STATUS : Nat := 11050

/-- `winapi` constant `IP_DEST_NET_UNREACHABLE` (11002). -/
def IP_DEST_NET_UNREACHABLE : Nat := 11002

/-- `winapi` constant `IP_DEST_HOST_UNREACHABLE` (11003). -/
def IP_DEST_HOST_UNREACHABLE : Nat := 11003

/-- `winapi` constant `IP_DEST_PROT_UNREACHABLE` (11004). -/
def IP_DEST_PROT_UNREACHABLE : Nat := 11004

/-- `winapi` constant `IP_PACKET_TOO_BIG` (11009). -/
def IP_PACKET_TOO_BIG : Nat := 11009

/-- `winapi` constant `IP_REQ_TIMED_OUT` (11010). -/
def IP_REQ_TIMED_OUT : Nat := 11010

/-- `winapi` constant `IP_TTL_EXPIRED_TRANSIT` (11013). -/
def IP_TTL_EXPIRED_TRANSIT : Nat := 11013

/-- `winapi` constant `IP_TTL_EXPIRED_REASSEM` (11014). -/
def IP_TTL_EXPIRED_REASSEM : Nat := 11014

/-- `winapi` constant `ERROR_NETWORK_UNREACHABLE` (1231). -/
def ERROR_NETWORK_UNREACHABLE : Nat := 1231

/-- `winapi` constant `ERROR_HOST_UNREACHABLE` (1232). -/
def ERROR_HOST_UNREACHABLE : Nat := 1232

/-- `winapi` constant `ERROR_PROTOCOL_UNREACHABLE` (1233). -/
def ERROR_PROTOCOL_UNREACHABLE : Nat := 1233

/-- `size_of::<Chunk>()` = `align_of::<Chunk>()` on the 64-bit target
(`buffer.rs`, `Chunk([u8; 8])` with `align(8)`). -/
def CHUNK_SIZE : Nat := 8

/-- `size_of::<ICMP_ECHO_REPLY>()` on the 64-bit target (40 bytes). -/
def SIZE_ICMP_ECHO_REPLY : Nat := 40

/-- `size_of::<ICMP_ECHO_REPLY32>()` (28 bytes). -/
def SIZE_ICMP_ECHO_REPLY32 : Nat := 28

/-- `size_of::<ICMPV6_ECHO_REPLY>()` (36 bytes; a packed 26-byte
`IPV6_ADDRESS_EX` at offset 0, `Status` at offset 28, `RoundTripTime`
at offset 32, 4-byte alignment). -/
def SIZE_ICMPV6_ECHO_REPLY : Nat := 36

/-- `u32` modulus, for the `as u32` cast in `Buffer::reply_data_len`. -/
def U32_MOD : Nat := 2 ^ 32

/-- `buffer.rs` `enum ReplyState`. -/
inductive ReplyState where
  | Empty : ReplyState
  | Filled4 (data_len : Nat) : ReplyState
  | Filled6 (data_len : Nat) : ReplyState
deriving DecidableEq

/-- `buffer.rs` `struct Buffer`.  `request_len` is `request_data.len()`;
`reply_chunks` is `reply_data.len()` (a count of 8-byte chunks). -/
structure Buffer where
  request_len : Nat
  reply_chunks : Nat
  rstate : ReplyState
deriving DecidableEq

/-- `MIN_ECHO_REPLY_SIZE` from `Buffer::init_for_send` (64-bit branch):
`size_of::<ICMP_ECHO_REPLY>()`, the largest of the three reply structs. -/
def MIN_ECHO_REPLY_SIZE : Nat := SIZE_ICMP_ECHO_REPLY

/-- `BASE_SIZE` from `Buffer::init_for_send`: `MIN_ECHO_REPLY_SIZE + 24`
(8 bytes of ICMP error plus up to 16 bytes of IO status block). -/
def BASE_SIZE : Nat := MIN_ECHO_REPLY_SIZE + 24

/-- The `const_assert!`s guarding `MIN_ECHO_REPLY_SIZE` in `init_for_send`:
the other two reply structs fit in `MIN_ECHO_REPLY_SIZE` bytes. -/
theorem min_echo_reply_size_max :
    SIZE_ICMPV6_ECHO_REPLY ≤ MIN_ECHO_REPLY_SIZE ∧
    SIZE_ICMP_ECHO_REPLY32 ≤ MIN_ECHO_REPLY_SIZE := by
  constructor <;> decide

/-- `Buffer::init_for_send`: resizes the reply region to
`ceil((BASE_SIZE + request_data.len()) / CHUNK_SIZE)` chunks and resets the
reply state to `Empty`. -/
def Buffer.init_for_send (b : Buffer) : Buffer :=
  { b with
    reply_chunks :=
      (BASE_SIZE + b.request_len) / CHUNK_SIZE +
        (if (BASE_SIZE + b.request_len) % CHUNK_SIZE = 0 then 0 else 1),
    rstate := ReplyState.Empty }

/-- `Buffer::reply_data_len`: `(reply_data.len() * CHUNK_SIZE) as u32`.
The `as u32` cast truncates, hence the `% U32_MOD`. -/
def Buffer.reply_data_len (b : Buffer) : Nat :=
  (b.reply_chunks * CHUNK_SIZE) % U32_MOD

/-- The `(len, offset)` pair the `match self.state` at the start of
`Buffer::reply_data` computes: the recorded reply data length and the fixed
header offset of the address family. -/
def Buffer.reply_len_offset (b : Buffer) : Nat × Nat :=
  match b.rstate with
  | ReplyState.Empty => (0, 0)
  | ReplyState.Filled4 data_len => (data_len, SIZE_ICMP_ECHO_REPLY)
  | ReplyState.Filled6 data_len => (data_len, SIZE_ICMPV6_ECHO_REPLY)

/-- `Buffer::reply_data`: the slice of the reply region returned to the
caller, modelled as an (offset, length) pair into the reply allocation;
`(0, 0)` is the empty slice `&[]`.  The guard is the source's
`len == 0 || offset + len > self.reply_data_len() as usize`. -/
def Buffer.reply_data (b : Buffer) : Nat × Nat :=
  if b.reply_len_offset.1 = 0 ∨
      b.reply_len_offset.2 + b.reply_len_offset.1 > b.reply_data_len then
    (0, 0)
  else (b.reply_len_offset.2, b.reply_len_offset.1)

/-- `error.rs` `enum Error`. -/
inductive Error where
  | Timeout : Error
  | NetUnreachable : Error
  | HostUnreachable : Error
  | TtlExpired : Error
  | ReassemblyExpired : Error
  | NeedsFragmented : Error
  | ProtocolUnreachable : Error
  | Other (code : Nat) : Error
deriving DecidableEq

/-- `Error::from_iperror`: the `match` on reply status codes, as a chain of
equality tests in source order. -/
def Error.from_iperror (err : Nat) : Error :=
  if err = IP_REQ_TIMED_OUT then Error.Timeout
  else if err = IP_DEST_HOST_UNREACHABLE then Error.HostUnreachable
  else if err = IP_DEST_NET_UNREACHABLE then Error.NetUnreachable
  else if err = IP_TTL_EXPIRED_TRANSIT then Error.TtlExpired
  else if err = IP_TTL_EXPIRED_REASSEM then Error.ReassemblyExpired
  else if err = IP_DEST_PROT_UNREACHABLE then Error.ProtocolUnreachable
  else if err = IP_PACKET_TOO_BIG then Error.NeedsFragmented
  else Error.Other err

/-- `Error::from_winerror`: IP-status-range codes go through `from_iperror`;
three OS-level unreachable codes are mapped directly; the rest is `Other`. -/
def Error.from_winerror (err : Nat) : Error :=
  if IP_STATUS_BASE ≤ err ∧ err ≤ MAX_IP_STATUS then Error.from_iperror err
  else if err = ERROR_HOST_UNREACHABLE then Error.HostUnreachable
  else if err = ERROR_NETWORK_UNREACHABLE then Error.NetUnreachable
  else if err = ERROR_PROTOCOL_UNREACHABLE then Error.ProtocolUnreachable
  else Error.Other err

/-- `async_pinger.rs` `enum State`: the per-request completion state shared
between the polling thread and the worker thread.  A waker is a `Nat`
token. -/
inductive State where
  | Unpolled (buf : Buffer) : State
  | Polled (buf : Buffer) (waker : Nat) : State
  | Ready (buf : Buffer) : State
  | Failed (buf : Buffer) (err : Nat) : State
  | FailedAsyncSend (buf : Buffer) (ret : Nat) : State
  | Invalid : State
deriving DecidableEq

/-- `after_send` from `try_recv_job` (`async_pinger.rs`).  `ret` is the
immediate return value of the `Icmp*SendEcho2*` call, `err` the value
`GetLastError()` returns afterwards, `s` the content of the shared mutex
when the worker inspects it.  Result: the final mutex content, the number
of times `Arc::from_raw` was executed on the job's raw context pointer,
and the wakers woken.  Both `if` blocks mirror the source: each one, when
its condition holds, reconstitutes the `Arc`, swaps the state for
`Invalid`, and matches on what was swapped out (the second block therefore
matches on the state the first block left behind). -/
def after_send (ret err : Nat) (s : State) : State × Nat × List Nat :=
  let step1 : State × Nat × List Nat :=
    if ret ≠ 0 then
      match s with
      | State.Unpolled buf => (State.FailedAsyncSend buf ret, 1, [])
      | State.Polled buf waker => (State.FailedAsyncSend buf ret, 1, [waker])
      | _ => (State.Invalid, 1, [])
    else (s, 0, [])
  if err ≠ ERROR_IO_PENDING then
    match step1.1 with
    | State.Unpolled buf => (State.Failed buf err, step1.2.1 + 1, step1.2.2)
    | State.Polled buf waker =>
        (State.Failed buf err, step1.2.1 + 1, step1.2.2 ++ [waker])
    | _ => (State.Invalid, step1.2.1 + 1, step1.2.2)
  else step1

/-- `callback_fn` (`async_pinger.rs`): the APC completion routine.  Returns
the new mutex content and the wakers woken. -/
def callback_fn (s : State) : State × List Nat :=
  match s with
  | State.Unpolled buf => (State.Ready buf, [])
  | State.Polled buf waker => (State.Ready buf, [waker])
  | _ => (State.Invalid, [])

/-- `IpKind` (`async_pinger.rs`): which address family the future is for. -/
inductive IpKind where
  | V4 : IpKind
  | V6 : IpKind
deriving DecidableEq

/-- `Result<u32, Error>`: the outcome stored in an `AsyncResult`. -/
inductive PingResult where
  | ok (rtt : Nat) : PingResult
  | err (e : Error) : PingResult
deriving DecidableEq

/-- `struct AsyncResult` (`async_pinger.rs`): outcome plus the buffer handed
back to the caller. -/
structure AsyncResult where
  result : PingResult
  buffer : Buffer
deriving DecidableEq

/-- What one call to `PingFuture::poll` produces: `Pending`, a ready
`AsyncResult`, or a panic (`unreachable!` or a failed `unwrap`). -/
inductive PollResult where
  | Pending : PollResult
  | ReadyRes (r : AsyncResult) : PollResult
  | Panic : PollResult
deriving DecidableEq

/-- Values poll reads from the OS when parsing a completed reply: the
return value of `Icmp(6)ParseReplies`, `GetLastError()` after it, and the
`Status`, `RoundTripTime` and `DataSize` fields of the parsed echo reply
(OS-written memory, hence inputs of the model). -/
structure ParseOracle where
  parseRet : Nat
  lastErr : Nat
  status : Nat
  rtt : Nat
  dataSize : Nat
deriving DecidableEq

/-- `Buffer::set_filled4` (`buffer.rs`): records a v4 reply of
`reply.DataSize` bytes.  Its `as_echo_reply().unwrap()` requires the reply
region to hold at least `SIZE_ICMP_ECHO_REPLY` bytes; `poll` models the
failing `unwrap` as a panic. -/
def Buffer.set_filled4 (b : Buffer) (dataSize : Nat) : Buffer :=
  { b with rstate := ReplyState.Filled4 dataSize }

/-- `Buffer::set_filled6` (`buffer.rs`): per RFC 4443 the reply data length
equals the request data length. -/
def Buffer.set_filled6 (b : Buffer) : Buffer :=
  { b with rstate := ReplyState.Filled6 b.request_len }

/-- `<PingFuture as Future>::poll` (`async_pinger.rs`).  `w` is the waker of
the polling task (`cx.waker().clone()`), `o` the OS parse oracle.  Returns
the mutex content after the call and the poll outcome.  The `Ready` arm
mirrors the source: the state is swapped for `Invalid` and the lock dropped
before parsing; on the 64-bit target the v4 path reads the reply through
`as_echo_reply32` (needs 28 bytes) and `set_filled4` re-reads it through
`as_echo_reply` (needs 40 bytes); each `unwrap` of a too-small region is a
panic. -/
def poll (kind : IpKind) (o : ParseOracle) (s : State) (w : Nat) :
    State × PollResult :=
  match s with
  | State.Unpolled buf => (State.Polled buf w, PollResult.Pending)
  | State.Polled buf _ => (State.Polled buf w, PollResult.Pending)
  | State.Ready buf =>
    if o.parseRet = 0 then
      (State.Invalid,
        PollResult.ReadyRes ⟨PingResult.err (Error.from_winerror o.lastErr), buf⟩)
    else
      match kind with
      | IpKind.V4 =>
        if SIZE_ICMP_ECHO_REPLY32 ≤ buf.reply_data_len then
          if SIZE_ICMP_ECHO_REPLY ≤ buf.reply_data_len then
            (State.Invalid,
              PollResult.ReadyRes
                ⟨if o.status = IP_SUCCESS then PingResult.ok o.rtt
                  else PingResult.err (Error.from_iperror o.status),
                  buf.set_filled4 o.dataSize⟩)
          else (State.Invalid, PollResult.Panic)
        else (State.Invalid, PollResult.Panic)
      | IpKind.V6 =>
        if SIZE_ICMPV6_ECHO_REPLY ≤ buf.reply_data_len then
          (State.Invalid,
            PollResult.ReadyRes
              ⟨if o.status = IP_SUCCESS then PingResult.ok o.rtt
                else PingResult.err (Error.from_iperror o.status),
                buf.set_filled6⟩)
        else (State.Invalid, PollResult.Panic)
  | State.Failed buf err =>
    (State.Invalid,
      PollResult.ReadyRes ⟨PingResult.err (Error.from_winerror err), buf⟩)
  | State.FailedAsyncSend _ _ => (State.Invalid, PollResult.Panic)
  | State.Invalid => (State.Invalid, PollResult.Panic)

/-- A sample buffer as produced by `init_for_send` for a 4-byte payload:
`ceil((64 + 4) / 8) = 9` chunks, 72 reply bytes. -/
def bufEx : Buffer := ⟨4, 9, ReplyState.Empty⟩

example : (Buffer.mk 4 0 ReplyState.Empty).init_for_send = bufEx := by decide

example : bufEx.reply_data_len = 72 := by decide

/-- C1: in the run where the immediate send return value is nonzero (here 1)
and the last error (here 5) is not `ERROR_IO_PENDING`, `after_send` executes
`Arc::from_raw` on the same raw context pointer in BOTH failure branches —
the reclaim count is 2, not at most 1.  One strong reference was turned into
a raw pointer at submission, so the second `Arc::from_raw` manufactures a
second owner from a pointer that was already reclaimed: a double-free of the
shared completion state.  The claim (and the spec's no-double-free
requirement) is violated by the code. -/
theorem after_send_double_reclaim :
    (after_send 1 5 (State.Unpolled bufEx)).2.1 = 2 ∧
    1 ≠ 0 ∧ (5 : Nat) ≠ ERROR_IO_PENDING := by
  refine ⟨?_, by decide, by decide⟩
  decide

/-- C2 counterexample: the completion callback does NOT leave an unexpected
state untouched.  Run on a state that is already `Ready` (a double
completion), `callback_fn` replaces it with the transient `Invalid` marker,
which differs from the prior value. -/
theorem callback_overwrites_foreign_state :
    callback_fn (State.Ready bufEx) = (State.Invalid, []) ∧
    State.Invalid ≠ State.Ready bufEx := by
  constructor <;> decide

/-- C2 (amended): when the completion callback runs, `Unpolled` becomes
`Ready`; `Polled` becomes `Ready` and the stored waker is woken exactly
once; every other state is replaced by the transient `Invalid` marker (its
prior value is dropped, deferring the inconsistency to the polling side)
with no waker woken; the callback never panics (it is total, every case
returns). -/
theorem callback_fn_transitions (b : Buffer) (w e r : Nat) :
    callback_fn (State.Unpolled b) = (State.Ready b, []) ∧
    callback_fn (State.Polled b w) = (State.Ready b, [w]) ∧
    callback_fn (State.Ready b) = (State.Invalid, []) ∧
    callback_fn (State.Failed b e) = (State.Invalid, []) ∧
    callback_fn (State.FailedAsyncSend b r) = (State.Invalid, []) ∧
    callback_fn State.Invalid = (State.Invalid, []) := by
  refine ⟨rfl, rfl, rfl, rfl, rfl, rfl⟩

/-- C3 counterexample: there IS a combination of return value and last error
that leaves the completion state as the transient `Invalid` marker: a
nonzero return (1) with a last error (5) different from `ERROR_IO_PENDING`.
The first branch moves the state to `FailedAsyncSend`, then the second
branch swaps it for `Invalid` and its catch-all arm leaves it there. -/
theorem after_send_invalid_state_cex :
    (after_send 1 5 (State.Unpolled bufEx)).1 = State.Invalid := by
  decide

/-- C3 (amended): classification of the immediate send return value, from
the states a job can be in when the worker dequeues it (`Unpolled`, or
`Polled` if the caller polled before the worker ran).  A pending return
(zero return, last error `ERROR_IO_PENDING`) leaves the state as-is with no
reclaim and no wake; a zero return with a different last error transitions
to `Failed` with that error and wakes a registered waiter; a nonzero return
with last error `ERROR_IO_PENDING` transitions to `FailedAsyncSend` with the
return value (waking a registered waiter); but a nonzero return whose last
error is also not `ERROR_IO_PENDING` runs both branches and leaves the state
as the transient `Invalid` marker. -/
theorem after_send_classification (b : Buffer) (w r e : Nat) :
    after_send 0 ERROR_IO_PENDING (State.Unpolled b) =
      (State.Unpolled b, 0, []) ∧
    after_send 0 ERROR_IO_PENDING (State.Polled b w) =
      (State.Polled b w, 0, []) ∧
    (e ≠ ERROR_IO_PENDING →
      after_send 0 e (State.Unpolled b) = (State.Failed b e, 1, []) ∧
      after_send 0 e (State.Polled b w) = (State.Failed b e, 1, [w])) ∧
    (r ≠ 0 →
      after_send r ERROR_IO_PENDING (State.Unpolled b) =
        (State.FailedAsyncSend b r, 1, []) ∧
      after_send r ERROR_IO_PENDING (State.Polled b w) =
        (State.FailedAsyncSend b r, 1, [w])) ∧
    (r ≠ 0 → e ≠ ERROR_IO_PENDING →
      (after_send r e (State.Unpolled b)).1 = State.Invalid ∧
      (after_send r e (State.Polled b w)).1 = State.Invalid) := by
  refine ⟨?_, ?_, ?_, ?_, ?_⟩
  · simp [after_send]
  · simp [after_send]
  · intro he
    constructor <;> simp [after_send, he]
  · intro hr
    constructor <;> simp [after_send, hr]
  · intro hr he
    constructor <;> simp [after_send, hr, he]

/-- C3 witness: the amended classification applied at concrete inputs
(`e = 5`, `r = 3`), with both hypotheses discharged. -/
theorem after_send_classification_witness :
    after_send 0 5 (State.Unpolled bufEx) = (State.Failed bufEx 5, 1, []) ∧
    after_send 3 ERROR_IO_PENDING (State.Polled bufEx 7) =
      (State.FailedAsyncSend bufEx 3, 1, [7]) ∧
    (after_send 3 5 (State.Unpolled bufEx)).1 = State.Invalid := by
  have h := after_send_classification bufEx 7 3 5
  exact ⟨(h.2.2.1 (by decide)).1, (h.2.2.2.1 (by decide)).2,
    (h.2.2.2.2 (by decide) (by decide)).1⟩

/-- C8: `Error::from_iperror` maps the seven known reply status codes to
their categories and every other code to `Other(code)`;
`Error::from_winerror` sends every code in the IP status range
(`IP_STATUS_BASE ..= MAX_IP_STATUS`) through the same table, maps the three
OS-level unreachable codes to their categories, and every remaining code to
`Other(code)`. -/
theorem error_code_mapping (c : Nat) :
    Error.from_iperror IP_REQ_TIMED_OUT = Error.Timeout ∧
    Error.from_iperror IP_DEST_HOST_UNREACHABLE = Error.HostUnreachable ∧
    Error.from_iperror IP_DEST_NET_UNREACHABLE = Error.NetUnreachable ∧
    Error.from_iperror IP_TTL_EXPIRED_TRANSIT = Error.TtlExpired ∧
    Error.from_iperror IP_TTL_EXPIRED_REASSEM = Error.ReassemblyExpired ∧
    Error.from_iperror IP_DEST_PROT_UNREACHABLE = Error.ProtocolUnreachable ∧
    Error.from_iperror IP_PACKET_TOO_BIG = Error.NeedsFragmented ∧
    (c ≠ IP_REQ_TIMED_OUT → c ≠ IP_DEST_HOST_UNREACHABLE →
      c ≠ IP_DEST_NET_UNREACHABLE → c ≠ IP_TTL_EXPIRED_TRANSIT →
      c ≠ IP_TTL_EXPIRED_REASSEM → c ≠ IP_DEST_PROT_UNREACHABLE →
      c ≠ IP_PACKET_TOO_BIG → Error.from_iperror c = Error.Other c) ∧
    (IP_STATUS_BASE ≤ c → c ≤ MAX_IP_STATUS →
      Error.from_winerror c = Error.from_iperror c) ∧
    Error.from_winerror ERROR_HOST_UNREACHABLE = Error.HostUnreachable ∧
    Error.from_winerror ERROR_NETWORK_UNREACHABLE = Error.NetUnreachable ∧
    Error.from_winerror ERROR_PROTOCOL_UNREACHABLE = Error.ProtocolUnreachable ∧
    (¬ (IP_STATUS_BASE ≤ c ∧ c ≤ MAX_IP_STATUS) →
      c ≠ ERROR_HOST_UNREACHABLE → c ≠ ERROR_NETWORK_UNREACHABLE →
      c ≠ ERROR_PROTOCOL_UNREACHABLE →
      Error.from_winerror c = Error.Other c) := by
  refine ⟨by decide, by decide, by decide, by decide, by decide, by decide,
    by decide, ?_, ?_, by decide, by decide, by decide, ?_⟩
  · intro h1 h2 h3 h4 h5 h6 h7
    simp [Error.from_iperror, h1, h2, h3, h4, h5, h6, h7]
  · intro hlo hhi
    simp [Error.from_winerror, hlo, hhi]
  · intro hrange h1 h2 h3
    simp [Error.from_winerror, hrange, h1, h2, h3]

/-- C8 witness: the mapping applied at concrete codes: 11001 (in the IP
status range but not one of the seven, so `Other`), and 42 (outside every
special case, so `Other`). -/
theorem error_code_mapping_witness :
    Error.from_iperror 11001 = Error.Other 11001 ∧
    Error.from_winerror 11001 = Error.from_iperror 11001 ∧
    Error.from_winerror 42 = Error.Other 42 := by
  have h1 := error_code_mapping 11001
  have h2 := error_code_mapping 42
  refine ⟨h1.2.2.2.2.2.2.2.1 (by decide) (by decide) (by decide) (by decide)
      (by decide) (by decide) (by decide),
    h1.2.2.2.2.2.2.2.2.1 (by decide) (by decide),
    h2.2.2.2.2.2.2.2.2.2.2.2.2 (by decide) (by decide) (by decide) (by decide)⟩

/-- C4: the poll contract of `PingFuture`, for any buffer whose reply region
is at least `SIZE_ICMP_ECHO_REPLY` (40) bytes — true of every buffer that
went through `init_for_send`, which allots at least 64 bytes.  `Unpolled`
and `Polled` store the new waker, move to `Polled` and report `Pending`;
`Ready` parses the reply and reports ready with `ok rtt` when the status is
`IP_SUCCESS` and with the mapped error otherwise (`from_iperror` of the
status when a reply parsed, `from_winerror` of the last error when the
parse call returned zero replies), handing the buffer back; `Failed`
reports ready with the mapped OS error and the buffer; `FailedAsyncSend`
and `Invalid` panic. -/
theorem pingfuture_poll_contract (kind : IpKind) (o : ParseOracle)
    (b : Buffer) (w w0 e : Nat)
    (hb : SIZE_ICMP_ECHO_REPLY ≤ b.reply_data_len) :
    poll kind o (State.Unpolled b) w = (State.Polled b w, PollResult.Pending) ∧
    poll kind o (State.Polled b w0) w =
      (State.Polled b w, PollResult.Pending) ∧
    (o.parseRet = 0 →
      poll kind o (State.Ready b) w =
        (State.Invalid,
          PollResult.ReadyRes
            ⟨PingResult.err (Error.from_winerror o.lastErr), b⟩)) ∧
    (o.parseRet ≠ 0 →
      poll IpKind.V4 o (State.Ready b) w =
        (State.Invalid,
          PollResult.ReadyRes
            ⟨if o.status = IP_SUCCESS then PingResult.ok o.rtt
              else PingResult.err (Error.from_iperror o.status),
              b.set_filled4 o.dataSize⟩) ∧
      poll IpKind.V6 o (State.Ready b) w =
        (State.Invalid,
          PollResult.ReadyRes
            ⟨if o.status = IP_SUCCESS then PingResult.ok o.rtt
              else PingResult.err (Error.from_iperror o.status),
              b.set_filled6⟩)) ∧
    poll kind o (State.Failed b e) w =
      (State.Invalid,
        PollResult.ReadyRes ⟨PingResult.err (Error.from_winerror e), b⟩) ∧
    poll kind o (State.FailedAsyncSend b e) w =
      (State.Invalid, PollResult.Panic) ∧
    poll kind o State.Invalid w = (State.Invalid, PollResult.Panic) := by
  have h32 : SIZE_ICMP_ECHO_REPLY32 ≤ b.reply_data_len :=
    le_trans (by decide) hb
  have h6 : SIZE_ICMPV6_ECHO_REPLY ≤ b.reply_data_len :=
    le_trans (by decide) hb
  refine ⟨rfl, rfl, ?_, ?_, rfl, rfl, rfl⟩
  · intro hp
    simp [poll, hp]
  · intro hp
    constructor <;> simp [poll, hp, h32, hb, h6]

/-- C4 witness: the poll contract applied to the sample 72-byte buffer with
a concrete parse oracle (one reply parsed, status `IP_SUCCESS`, round trip
time 31, data size 4) and to one with zero replies parsed and last error
11010. -/
theorem pingfuture_poll_contract_witness :
    poll IpKind.V4 ⟨1, 0, IP_SUCCESS, 31, 4⟩ (State.Unpolled bufEx) 9 =
      (State.Polled bufEx 9, PollResult.Pending) ∧
    poll IpKind.V4 ⟨1, 0, IP_SUCCESS, 31, 4⟩ (State.Ready bufEx) 9 =
      (State.Invalid,
        PollResult.ReadyRes ⟨PingResult.ok 31, bufEx.set_filled4 4⟩) ∧
    poll IpKind.V4 ⟨0, 11010, 0, 0, 0⟩ (State.Ready bufEx) 9 =
      (State.Invalid,
        PollResult.ReadyRes ⟨PingResult.err Error.Timeout, bufEx⟩) := by
  have h1 := pingfuture_poll_contract IpKind.V4 ⟨1, 0, IP_SUCCESS, 31, 4⟩
    bufEx 9 0 0 (by decide)
  have h2 := pingfuture_poll_contract IpKind.V4 ⟨0, 11010, 0, 0, 0⟩
    bufEx 9 0 0 (by decide)
  refine ⟨h1.1, ?_, ?_⟩
  · have := (h1.2.2.2.1 (by decide)).1
    simpa using this
  · have := h2.2.2.1 (by decide)
    simpa [Error.from_winerror, Error.from_iperror] using this

/-- C6 counterexample: polling is NOT idempotent with respect to ready
states.  Starting from `Ready` on the sample buffer, the first poll reports
a ready outcome and leaves the shared state as `Invalid`; the very next
poll of the same future panics (`unreachable!`) instead of yielding the
same terminal outcome class. -/
theorem poll_after_ready_panics_cex :
    (poll IpKind.V4 ⟨1, 0, IP_SUCCESS, 31, 4⟩ (State.Ready bufEx) 9).2 =
      PollResult.ReadyRes ⟨PingResult.ok 31, bufEx.set_filled4 4⟩ ∧
    (poll IpKind.V4 ⟨1, 0, IP_SUCCESS, 31, 4⟩
        (poll IpKind.V4 ⟨1, 0, IP_SUCCESS, 31, 4⟩ (State.Ready bufEx) 9).1
        9).2 = PollResult.Panic := by
  constructor <;> decide

/-- Does a poll outcome report readiness (carry an `AsyncResult`)? -/
def PollResult.isReady : PollResult → Bool
  | PollResult.ReadyRes _ => true
  | _ => false

/-- C6 (amended): once a poll reports a ready outcome (necessarily from a
`Ready` or `Failed` state), the shared completion state is left as the
transient `Invalid` marker; every subsequent poll panics rather than
returning an outcome and leaves the state `Invalid`; and the state is never
re-entered into a non-terminal variant (`Unpolled` or `Polled`) by any of
the three mutators — a subsequent poll, the completion callback, or the
post-send handling all map `Invalid` to `Invalid`. -/
theorem poll_terminal_state_invalid (kind : IpKind) (o : ParseOracle)
    (s : State) (w : Nat)
    (h : (poll kind o s w).2.isReady = true) :
    (poll kind o s w).1 = State.Invalid ∧
    (∀ kind' o' w', poll kind' o' State.Invalid w' =
      (State.Invalid, PollResult.Panic)) ∧
    (callback_fn State.Invalid).1 = State.Invalid ∧
    (∀ r e, (after_send r e State.Invalid).1 = State.Invalid) := by
  refine ⟨?_, fun kind' o' w' => rfl, rfl, ?_⟩
  · match s with
    | State.Unpolled b => simp [poll, PollResult.isReady] at h
    | State.Polled b w0 => simp [poll, PollResult.isReady] at h
    | State.Ready b =>
      simp only [poll]
      split
      · rfl
      · cases kind <;> simp only [] <;> split <;> try rfl
        split <;> rfl
    | State.Failed b e => rfl
    | State.FailedAsyncSend b e => rfl
    | State.Invalid => rfl
  · intro r e
    by_cases hr : r = 0 <;> by_cases he : e = ERROR_IO_PENDING <;>
      simp [after_send, hr, he]

/-- C6 witness: applied at a concrete ready poll (state `Failed` with error
11010 on the sample buffer), discharging the readiness hypothesis. -/
theorem poll_terminal_state_invalid_witness :
    (poll IpKind.V4 ⟨1, 0, 0, 0, 0⟩ (State.Failed bufEx 11010) 9).1 =
      State.Invalid ∧
    poll IpKind.V6 ⟨1, 0, 0, 0, 0⟩ State.Invalid 3 =
      (State.Invalid, PollResult.Panic) ∧
    (after_send 1 5 State.Invalid).1 = State.Invalid := by
  have h := poll_terminal_state_invalid IpKind.V4 ⟨1, 0, 0, 0, 0⟩
    (State.Failed bufEx 11010) 9 (by decide)
  exact ⟨h.1, h.2.1 IpKind.V6 ⟨1, 0, 0, 0, 0⟩ 3, h.2.2.2 1 5⟩

/-- C9 counterexample: `reply_data_len()` returns a `u32`, so the claimed
lower bound fails for huge payloads.  For a request of `2 ^ 32 - 64` bytes,
`init_for_send` resizes to `2 ^ 29` chunks (`2 ^ 32` bytes), but the
`as u32` cast truncates `reply_data_len()` to 0, which is smaller than the
required `MIN_ECHO_REPLY_SIZE + 24 + n`. -/
theorem init_for_send_truncation_cex :
    ((Buffer.mk (2 ^ 32 - 64) 0 ReplyState.Empty).init_for_send).reply_data_len
        = 0 ∧
    ¬ (MIN_ECHO_REPLY_SIZE + 24 + (2 ^ 32 - 64) ≤
        ((Buffer.mk (2 ^ 32 - 64) 0 ReplyState.Empty).init_for_send).reply_data_len) := by
  constructor <;> decide

/-- C9 (amended): for every buffer whose padded size
`BASE_SIZE + request_len + CHUNK_SIZE` does not exceed `2 ^ 32` (so the
`as u32` cast cannot truncate), after `init_for_send` the reply region's
byte length `reply_data_len()` is at least the size of the largest
echo-reply structure of either address family (40 bytes for v4, and hence
also the 36-byte v6 and 28-byte v4-32 variants) plus 24 bytes of protocol
overhead plus the request length, and it is the smallest multiple of
`CHUNK_SIZE` that is at least that sum. -/
theorem init_for_send_reply_len (b : Buffer)
    (h : BASE_SIZE + b.request_len + CHUNK_SIZE ≤ U32_MOD) :
    MIN_ECHO_REPLY_SIZE + 24 + b.request_len ≤
      b.init_for_send.reply_data_len ∧
    SIZE_ICMPV6_ECHO_REPLY + 24 + b.request_len ≤
      b.init_for_send.reply_data_len ∧
    SIZE_ICMP_ECHO_REPLY32 + 24 + b.request_len ≤
      b.init_for_send.reply_data_len ∧
    b.init_for_send.reply_data_len % CHUNK_SIZE = 0 ∧
    (∀ m, MIN_ECHO_REPLY_SIZE + 24 + b.request_len ≤ m →
      m % CHUNK_SIZE = 0 → b.init_for_send.reply_data_len ≤ m) := by
  have hU : U32_MOD = 4294967296 := rfl
  have hC : CHUNK_SIZE = 8 := rfl
  have hB : BASE_SIZE = 64 := rfl
  have hM : MIN_ECHO_REPLY_SIZE = 40 := rfl
  have h6 : SIZE_ICMPV6_ECHO_REPLY = 36 := rfl
  have h32 : SIZE_ICMP_ECHO_REPLY32 = 28 := rfl
  rw [hB, hC, hU] at h
  simp only [Buffer.init_for_send, Buffer.reply_data_len, hU, hC, hB, hM,
    h6, h32]
  have key : ((64 + b.request_len) / 8 +
        if (64 + b.request_len) % 8 = 0 then 0 else 1) * 8 % 4294967296 =
      ((64 + b.request_len) / 8 +
        if (64 + b.request_len) % 8 = 0 then 0 else 1) * 8 :=
    Nat.mod_eq_of_lt (by split <;> omega)
  rw [key]
  refine ⟨by split <;> omega, by split <;> omega, by split <;> omega,
    by split <;> omega, ?_⟩
  intro m hm hm8
  split <;> omega

/-- C9 witness: applied at a 4-byte request: the reply region is 72 bytes,
at least `40 + 24 + 4 = 68`, a multiple of 8, and minimal (72 ≤ 72). -/
theorem init_for_send_reply_len_witness :
    MIN_ECHO_REPLY_SIZE + 24 + 4 ≤
      (Buffer.mk 4 0 ReplyState.Empty).init_for_send.reply_data_len ∧
    (Buffer.mk 4 0 ReplyState.Empty).init_for_send.reply_data_len % CHUNK_SIZE
      = 0 ∧
    (Buffer.mk 4 0 ReplyState.Empty).init_for_send.reply_data_len ≤ 72 := by
  have h := init_for_send_reply_len (Buffer.mk 4 0 ReplyState.Empty)
    (by decide)
  exact ⟨h.1, h.2.2.2.1, h.2.2.2.2 72 (by decide) (by decide)⟩

/-- C10: `reply_data()` always stays inside the reply region.  It is the
empty slice whenever the reply state is `Empty`, whenever the recorded data
length is 0, and whenever the fixed header offset plus the recorded length
exceeds `reply_data_len()`; and in every case the returned slice's offset
plus length is bounded by the reply allocation's true byte size
(`reply_chunks * CHUNK_SIZE`), so the slice never extends past the end of
the allocation. -/
theorem reply_data_in_bounds (b : Buffer) (d : Nat) :
    (b.rstate = ReplyState.Empty → b.reply_data = (0, 0)) ∧
    (b.rstate = ReplyState.Filled4 0 → b.reply_data = (0, 0)) ∧
    (b.rstate = ReplyState.Filled6 0 → b.reply_data = (0, 0)) ∧
    (b.rstate = ReplyState.Filled4 d →
      SIZE_ICMP_ECHO_REPLY + d > b.reply_data_len → b.reply_data = (0, 0)) ∧
    (b.rstate = ReplyState.Filled6 d →
      SIZE_ICMPV6_ECHO_REPLY + d > b.reply_data_len → b.reply_data = (0, 0)) ∧
    b.reply_data.1 + b.reply_data.2 ≤ b.reply_chunks * CHUNK_SIZE := by
  have hle : b.reply_data_len ≤ b.reply_chunks * CHUNK_SIZE :=
    Nat.mod_le _ _
  refine ⟨?_, ?_, ?_, ?_, ?_, ?_⟩
  · intro hs
    simp [Buffer.reply_data, Buffer.reply_len_offset, hs]
  · intro hs
    simp [Buffer.reply_data, Buffer.reply_len_offset, hs]
  · intro hs
    simp [Buffer.reply_data, Buffer.reply_len_offset, hs]
  · intro hs hgt
    rw [Buffer.reply_data, if_pos]
    right
    simpa [Buffer.reply_len_offset, hs] using hgt
  · intro hs hgt
    rw [Buffer.reply_data, if_pos]
    right
    simpa [Buffer.reply_len_offset, hs] using hgt
  · rw [Buffer.reply_data]
    split
    · simp
    · rename_i hcond
      rw [not_or, not_lt] at hcond
      exact le_trans hcond.2 hle

/-- The state-transition part of `poll`, as a function of the inspected
state and the polling task's waker only. -/
def pollState (s : State) (w : Nat) : State :=
  match s with
  | State.Unpolled buf => State.Polled buf w
  | State.Polled buf _ => State.Polled buf w
  | _ => State.Invalid

/-- The mutex content `poll` leaves behind never depends on the address
family or on what the OS parse produced: it is `pollState`. -/
theorem poll_fst_eq_pollState (kind : IpKind) (o : ParseOracle) (s : State)
    (w : Nat) : (poll kind o s w).1 = pollState s w := by
  match s with
  | State.Unpolled b => rfl
  | State.Polled b w0 => rfl
  | State.Failed b e => rfl
  | State.FailedAsyncSend b e => rfl
  | State.Invalid => rfl
  | State.Ready b =>
    simp only [poll, pollState]
    split
    · rfl
    · cases kind <;> simp only [] <;> split <;> try rfl
      split <;> rfl

/-- An observable event on one probe's shared completion state: a poll by
the caller (with the polling task's waker token) or the OS completion
callback on the worker thread. -/
inductive Event where
  | poll (w : Nat) : Event
  | callback : Event
deriving DecidableEq

/-- One event's effect on the shared state: the new state and the wakers
woken.  Polls never wake anyone; callbacks act as `callback_fn`. -/
def stepEvent (s : State) : Event → State × List Nat
  | Event.poll w => (pollState s w, [])
  | Event.callback => callback_fn s

/-- Run a sequence of events from a state, accumulating the woken wakers in
order. -/
def run : State → List Event → State × List Nat
  | s, [] => (s, [])
  | s, e :: es =>
    ((run (stepEvent s e).1 es).1,
      (stepEvent s e).2 ++ (run (stepEvent s e).1 es).2)

/-- Number of callback events in a trace. -/
def callbacks : List Event → Nat
  | [] => 0
  | Event.callback :: es => callbacks es + 1
  | Event.poll _ :: es => callbacks es

/-- One callback invocation wakes at most one waker. -/
theorem callback_fn_wakes_le_one (s : State) :
    ((callback_fn s).2).length ≤ 1 := by
  cases s <;> simp [callback_fn]

/-- A run wakes at most as many wakers as it has callback events. -/
theorem run_wakes_le_callbacks (es : List Event) :
    ∀ s, ((run s es).2).length ≤ callbacks es := by
  induction es with
  | nil => intro s; simp [run, callbacks]
  | cons e es ih =>
    intro s
    cases e with
    | poll w => simpa [run, stepEvent, callbacks] using ih (pollState s w)
    | callback =>
      simp only [run, stepEvent, callbacks, List.length_append]
      have h1 := callback_fn_wakes_le_one s
      have h2 := ih (callback_fn s).1
      omega

/-- Runs compose: a trace split in two runs the first part, then the second
from the reached state, concatenating the wakes. -/
theorem run_append (es : List Event) :
    ∀ es' s, run s (es ++ es') =
      ((run (run s es).1 es').1, (run s es).2 ++ (run (run s es).1 es').2) := by
  induction es with
  | nil => intro es' s; simp [run]
  | cons e es ih =>
    intro es' s
    simp [run, ih, List.append_assoc]

/-- C5: waker discipline over interleavings of polls and a single
completion callback.  At most one waker is registered at any time (the
`Polled` variant holds exactly one, and each poll stores exactly the new
waker, displacing any previously stored one); a callback that finds a
registered waiter wakes it exactly once; a trace with at most one callback
wakes at most one waker in total (never two wake-ups for one
registration); and no wake-up is lost: if the trace has left the state
`Polled` with stored waker `w'`, a callback fired next wakes exactly
`w'`. -/
theorem waker_registration_contract (b : Buffer) (w w0 : Nat)
    (kind : IpKind) (o : ParseOracle) (es : List Event) :
    (poll kind o (State.Unpolled b) w).1 = State.Polled b w ∧
    (poll kind o (State.Polled b w0) w).1 = State.Polled b w ∧
    callback_fn (State.Polled b w) = (State.Ready b, [w]) ∧
    (callbacks es ≤ 1 → ((run (State.Unpolled b) es).2).length ≤ 1) ∧
    (∀ b' w' ws, run (State.Unpolled b) es = (State.Polled b' w', ws) →
      (run (State.Unpolled b) (es ++ [Event.callback])).2 = ws ++ [w']) := by
  refine ⟨rfl, rfl, rfl, ?_, ?_⟩
  · intro hc
    exact le_trans (run_wakes_le_callbacks es _) hc
  · intro b' w' ws hrun
    rw [run_append, hrun]
    simp [run, stepEvent, callback_fn]

/-- C5 witness: a concrete trace — poll with waker 3, then poll with waker
7 (displacing 3), then the callback: exactly one wake-up, and it goes to
the displaced-to waker 7. -/
theorem waker_registration_contract_witness :
    ((run (State.Unpolled bufEx) [Event.poll 3, Event.poll 7]).2).length ≤ 1 ∧
    (run (State.Unpolled bufEx)
        ([Event.poll 3, Event.poll 7] ++ [Event.callback])).2 = [] ++ [7] := by
  have h := waker_registration_contract bufEx 7 3 IpKind.V4 ⟨1, 0, 0, 0, 0⟩
    [Event.poll 3, Event.poll 7]
  exact ⟨h.2.2.2.1 (by decide), h.2.2.2.2 bufEx 7 [] (by decide)⟩

/-- The buffer a completion state holds, if any (`Invalid` holds none). -/
def stateBuf : State → Option Buffer
  | State.Unpolled b => some b
  | State.Polled b _ => some b
  | State.Ready b => some b
  | State.Failed b _ => some b
  | State.FailedAsyncSend b _ => some b
  | State.Invalid => none

/-- The buffer a poll outcome hands back to the caller, if any. -/
def PollResult.resultBuf : PollResult → Option Buffer
  | PollResult.ReadyRes r => some r.buffer
  | _ => none

/-- C7 counterexample: the buffer IS lost on a reachable transition.  From
`Unpolled` (which holds the buffer), the post-send handling with a nonzero
return (1) and a last error (6) other than `ERROR_IO_PENDING` leaves the
state as `Invalid`, which holds no buffer — and `after_send` has no channel
that hands a buffer back, so the buffer is dropped before any terminal
hand-back. -/
theorem after_send_buffer_lost_cex :
    stateBuf (State.Unpolled bufEx) = some bufEx ∧
    stateBuf (after_send 1 6 (State.Unpolled bufEx)).1 = none := by
  constructor <;> decide

/-- Buffer preservation through the good paths of `after_send`. -/
theorem after_send_good_buf (r e : Nat)
    (hre : r = 0 ∨ e = ERROR_IO_PENDING) (b : Buffer) (w : Nat) :
    stateBuf (after_send r e (State.Unpolled b)).1 = some b ∧
    stateBuf (after_send r e (State.Polled b w)).1 = some b := by
  rcases hre with rfl | rfl
  · by_cases he : e = ERROR_IO_PENDING <;>
      constructor <;> simp [after_send, stateBuf, he]
  · by_cases hr : r = 0 <;>
      constructor <;> simp [after_send, stateBuf, hr]

/-- C7 (amended): every non-transient state variant holds exactly one
buffer, and every transition except the anomalous double-branch run of the
post-send handling moves that single buffer along or hands it back: the
post-send handling preserves it whenever the return value is zero or the
last error is `ERROR_IO_PENDING`; the completion callback preserves it;
non-ready polls move it into the replacement `Polled` state and hand
nothing out; the ready poll of `Ready` hands back the one buffer (same
request length and same reply allocation, with only the recorded reply
state updated) and leaves the drained `Invalid` marker behind; the ready
poll of `Failed` hands back exactly the stored buffer.  (On the run where
the send returns nonzero and the last error is not `ERROR_IO_PENDING`, the
buffer is dropped — see the counterexample.) -/
theorem buffer_conservation (kind : IpKind) (o : ParseOracle) (b : Buffer)
    (w w0 r e : Nat) (hre : r = 0 ∨ e = ERROR_IO_PENDING)
    (hb : SIZE_ICMP_ECHO_REPLY ≤ b.reply_data_len) :
    (∀ s, s ≠ State.Invalid → (stateBuf s).isSome = true) ∧
    stateBuf (after_send r e (State.Unpolled b)).1 = some b ∧
    stateBuf (after_send r e (State.Polled b w)).1 = some b ∧
    stateBuf (callback_fn (State.Unpolled b)).1 = some b ∧
    stateBuf (callback_fn (State.Polled b w)).1 = some b ∧
    (poll kind o (State.Unpolled b) w).1 = State.Polled b w ∧
    (poll kind o (State.Unpolled b) w).2.resultBuf = none ∧
    (poll kind o (State.Polled b w0) w).1 = State.Polled b w ∧
    (poll kind o (State.Polled b w0) w).2.resultBuf = none ∧
    Option.map Buffer.request_len
      ((poll kind o (State.Ready b) w).2.resultBuf) = some b.request_len ∧
    Option.map Buffer.reply_chunks
      ((poll kind o (State.Ready b) w).2.resultBuf) = some b.reply_chunks ∧
    stateBuf (poll kind o (State.Ready b) w).1 = none ∧
    (poll kind o (State.Failed b e) w).2.resultBuf = some b ∧
    stateBuf (poll kind o (State.Failed b e) w).1 = none := by
  have hgood := after_send_good_buf r e hre b w
  have h32 : SIZE_ICMP_ECHO_REPLY32 ≤ b.reply_data_len :=
    le_trans (by decide) hb
  have h6 : SIZE_ICMPV6_ECHO_REPLY ≤ b.reply_data_len :=
    le_trans (by decide) hb
  have hready : Option.map Buffer.request_len
        ((poll kind o (State.Ready b) w).2.resultBuf) = some b.request_len ∧
      Option.map Buffer.reply_chunks
        ((poll kind o (State.Ready b) w).2.resultBuf) = some b.reply_chunks ∧
      stateBuf (poll kind o (State.Ready b) w).1 = none := by
    by_cases hp : o.parseRet = 0
    · simp [poll, hp, PollResult.resultBuf, stateBuf]
    · cases kind <;>
        simp [poll, hp, h32, hb, h6, PollResult.resultBuf, stateBuf,
          Buffer.set_filled4, Buffer.set_filled6]
  refine ⟨?_, hgood.1, hgood.2, rfl, rfl, rfl, rfl, rfl, rfl,
    hready.1, hready.2.1, hready.2.2, rfl, rfl⟩
  intro s hs
  cases s <;> first | rfl | exact absurd rfl hs

/-- C7 witness: the conservation clauses applied to the sample buffer with
a pending send (`r = 0`, `e = ERROR_IO_PENDING`). -/
theorem buffer_conservation_witness :
    stateBuf (after_send 0 ERROR_IO_PENDING (State.Unpolled bufEx)).1 =
      some bufEx ∧
    stateBuf (callback_fn (State.Polled bufEx 3)).1 = some bufEx ∧
    Option.map Buffer.request_len
      ((poll IpKind.V4 ⟨1, 0, 0, 31, 4⟩ (State.Ready bufEx) 3).2.resultBuf) =
      some bufEx.request_len := by
  have h := buffer_conservation IpKind.V4 ⟨1, 0, 0, 31, 4⟩ bufEx 3 0 0
    ERROR_IO_PENDING (Or.inl rfl) (by decide)
  exact ⟨h.2.1, h.2.2.2.2.1, h.2.2.2.2.2.2.2.2.2.1⟩

/-- C10 witness: applied to the sample buffer filled with a 4-byte v4 reply
(slice is bytes 40..44 of the 72-byte region) and to an `Empty` one. -/
theorem reply_data_in_bounds_witness :
    bufEx.reply_data = (0, 0) ∧
    (Buffer.mk 4 9 (ReplyState.Filled4 4)).reply_data.1 +
      (Buffer.mk 4 9 (ReplyState.Filled4 4)).reply_data.2 ≤ 9 * CHUNK_SIZE := by
  have h1 := reply_data_in_bounds bufEx 0
  have h2 := reply_data_in_bounds (Buffer.mk 4 9 (ReplyState.Filled4 4)) 4
  exact ⟨h1.1 (by decide), h2.2.2.2.2.2⟩

end Winping
